import Mathlib

/-!
Shallow embedding of the bonchik_coach_bot job pipeline, verified against
its natural-language specification.

The embedding covers:
* the Postgres idempotency ledger (`shared/src/updates.ts`),
* the Redis fixed-window rate limiter (`shared/src/rate-limit.ts`),
* the BullMQ telegram queue, DLQ, and requeue operation (queue module),
* the webhook route of the API (`api/src/app.ts`),
* the worker's retry wrapper, error classifier, reporter fallback,
  coach-mode recommendation, feedback flow, and morning-summary job
  (`workers/src/index.ts`, `shared/src/reports.ts`, `shared/src/openrouter.ts`).

Databases and Redis are modelled as explicit functional state; every
asynchronous effectful function of the source becomes a state-passing Lean
function, and thrown JS exceptions become `Except` errors.
-/

namespace Bonchik

/-! ## String primitives with JavaScript semantics -/

/-- JS `String.prototype.toLowerCase`, restricted to the alphabets the code
uses (ASCII plus Russian Cyrillic, including Ё): other characters map to
themselves, mirroring the Unicode simple lowercase mapping on this data. -/
def jsCharToLower (c : Char) : Char :=
  if 'A' ≤ c ∧ c ≤ 'Z' then Char.ofNat (c.toNat + 32)
  else if 'А' ≤ c ∧ c ≤ 'Я' then Char.ofNat (c.toNat + 32)
  else if c = 'Ё' then 'ё'
  else c

/-- JS `toLowerCase` on a whole string (character-wise). -/
def jsToLower (s : String) : String :=
  ⟨s.data.map jsCharToLower⟩

/-- JS `String.prototype.includes`: `pat` occurs as a contiguous substring
of `s`. -/
def includesSub (s pat : String) : Bool :=
  (List.range (s.data.length + 1)).any (fun i => pat.data.isPrefixOf (s.data.drop i))

/-- JS `String.prototype.trim`: strip leading and trailing whitespace. -/
def jsTrim (s : String) : String :=
  ⟨((s.data.dropWhile Char.isWhitespace).reverse.dropWhile Char.isWhitespace).reverse⟩

/-! ## Rate limiter (`shared/src/rate-limit.ts`)

Redis state for one rate-limit key: `none` when the key is absent (never
used, or expired), `some (count, expiresAt)` otherwise.  Time is a `Nat`
count of seconds.  The Lua script is atomic, so one script invocation is
one state transition. -/

/-- Value of one Redis rate-limit key: request count and absolute expiry
second. -/
structure RateLimitEntry where
  count : Nat
  expiresAt : Nat
  deriving Repr, DecidableEq

/-- Result of `consumeRateLimit` as in the source. -/
structure RateLimitResult where
  allowed : Bool
  remaining : Nat
  retryAfterSec : Int
  deriving Repr, DecidableEq

/-- The Lua script `RATE_LIMIT_LUA`: `INCR` (which creates the key at 1 if
absent or expired), `EXPIRE windowSec` when the incremented value is 1, and
`TTL`.  Returns `(current, ttl)` and the new key state at time `now`. -/
def rateLimitLua (entry : Option RateLimitEntry) (now windowSec : Nat) :
    (Nat × Int) × RateLimitEntry :=
  match entry with
  | some e =>
    if now < e.expiresAt then
      ((e.count + 1, (e.expiresAt : Int) - (now : Int)), ⟨e.count + 1, e.expiresAt⟩)
    else
      ((1, (windowSec : Int)), ⟨1, now + windowSec⟩)
  | none => ((1, (windowSec : Int)), ⟨1, now + windowSec⟩)

/-- `sanitizeTtl` from the source: replace a non-positive TTL by the
window. -/
def sanitizeTtl (ttl : Int) (fallback : Nat) : Int :=
  if ttl > 0 then ttl else (fallback : Int)

/-- `consumeRateLimit`: run the Lua script, then decide `allowed`,
`remaining` and `retryAfterSec` exactly as the source does
(`allowed = count <= maxRequests`, `remaining = max 0 (max - count)`). -/
def consumeRateLimit (entry : Option RateLimitEntry) (now maxRequests windowSec : Nat) :
    RateLimitResult × RateLimitEntry :=
  let r := rateLimitLua entry now windowSec
  let count := r.1.1
  let ttl := sanitizeTtl r.1.2 windowSec
  (⟨count ≤ maxRequests, maxRequests - count, ttl⟩, r.2)

/-- Iterate `n` sequential `consumeRateLimit` calls for one key at a fixed
time `t`, returning the final key state. -/
def consumeIter (entry : Option RateLimitEntry) (t maxRequests windowSec : Nat) :
    Nat → Option RateLimitEntry
  | 0 => entry
  | n + 1 => some (consumeRateLimit (consumeIter entry t maxRequests windowSec n) t maxRequests windowSec).2

/-- One key state after `k` fresh-window calls: the counter simply counts. -/
theorem consumeIter_fresh (t maxRequests w : Nat) (hw : 0 < w) :
    ∀ k, consumeIter none t maxRequests w (k + 1) = some ⟨k + 1, t + w⟩ := by
  intro k
  induction k with
  | zero => simp [consumeIter, consumeRateLimit, rateLimitLua]
  | succ n ih =>
    have hlt : t < t + w := by omega
    have hstep : consumeIter none t maxRequests w (n + 1 + 1)
        = some (consumeRateLimit (consumeIter none t maxRequests w (n + 1)) t maxRequests w).2 := rfl
    rw [hstep, ih]
    simp [consumeRateLimit, rateLimitLua, hlt]

/-- Result of the `k`-th call (1-based) in a single fresh window at time
`t`. -/
def kthRateLimitResult (t maxRequests w k : Nat) : RateLimitResult :=
  (consumeRateLimit (consumeIter none t maxRequests w (k - 1)) t maxRequests w).1

theorem kthRateLimitResult_eq (t N w k : Nat) (hw : 0 < w) (hk : 1 ≤ k) :
    kthRateLimitResult t N w k = ⟨decide (k ≤ N), N - k, (w : Int)⟩ := by
  unfold kthRateLimitResult
  cases k with
  | zero => omega
  | succ m =>
    cases m with
    | zero =>
      simp [consumeIter, consumeRateLimit, rateLimitLua, sanitizeTtl, hw]
    | succ p =>
      have hiter := consumeIter_fresh t N w hw p
      have hlt : t < t + w := by omega
      have harith : (↑(t + w) : Int) - (t : Int) = (w : Int) := by push_cast; ring
      have hp : p + 1 + 1 - 1 = p + 1 := rfl
      rw [hp, hiter]
      simp [consumeRateLimit, rateLimitLua, hlt, sanitizeTtl, harith, hw]

/-- C3: fixed-window behaviour of `consumeRateLimit`.  Within one window
starting fresh at time `t` with limit `N` and window `w > 0`: every call
whose count is at most `N` is allowed, the `(N+1)`-th call is denied with a
positive `retryAfterSec`, and a call at any time `t'` at or past the
window's expiry is allowed again with the counter restarted at `1`. -/
theorem consumeRateLimit_fixed_window (t N w : Nat) (hw : 0 < w) (hN : 0 < N) :
    (∀ k, 1 ≤ k → k ≤ N → (kthRateLimitResult t N w k).allowed = true)
    ∧ ((kthRateLimitResult t N w (N + 1)).allowed = false
        ∧ 0 < (kthRateLimitResult t N w (N + 1)).retryAfterSec)
    ∧ (∀ t', t + w ≤ t' →
        (consumeRateLimit (consumeIter none t N w (N + 1)) t' N w).1.allowed = true
        ∧ (consumeRateLimit (consumeIter none t N w (N + 1)) t' N w).2
            = ⟨1, t' + w⟩) := by
  refine ⟨?_, ⟨?_, ?_⟩, ?_⟩
  · intro k hk1 hkN
    rw [kthRateLimitResult_eq t N w k hw hk1]
    simpa using hkN
  · rw [kthRateLimitResult_eq t N w (N + 1) hw (by omega)]
    simp
  · rw [kthRateLimitResult_eq t N w (N + 1) hw (by omega)]
    simpa using hw
  · intro t' ht'
    have hiter := consumeIter_fresh t N w hw N
    have hnotlt : ¬ t' < t + w := by omega
    constructor
    · simp [hiter, consumeRateLimit, rateLimitLua, hnotlt]
      omega
    · simp [hiter, consumeRateLimit, rateLimitLua, hnotlt]

/-- Witness for C3 at `t = 100`, `N = 3`, `w = 60`: the fourth call in the
window is denied with positive retry-after, the first three are allowed,
and a call at `t' = 160` starts a fresh counter. -/
theorem consumeRateLimit_fixed_window_witness :
    (kthRateLimitResult 100 3 60 3).allowed = true
    ∧ (kthRateLimitResult 100 3 60 4).allowed = false
    ∧ 0 < (kthRateLimitResult 100 3 60 4).retryAfterSec
    ∧ (consumeRateLimit (consumeIter none 100 3 60 4) 160 3 60).2 = ⟨1, 220⟩ := by
  have h := consumeRateLimit_fixed_window 100 3 60 (by decide) (by decide)
  exact ⟨h.1 3 (by decide) (by decide), h.2.1.1, h.2.1.2, (h.2.2 160 (by decide)).2⟩

/-! ## Idempotency ledger (`shared/src/updates.ts`)

The table `telegram_processed_updates` has `update_id` as its unique key;
we model it as the list of inserted ids.  `INSERT .. ON CONFLICT DO
NOTHING RETURNING` inserts exactly when the id is absent and reports
whether a row was inserted. -/

/-- `markTelegramUpdateProcessed`: insert-if-absent on the unique
`update_id` column; returns `true` iff a row was actually inserted. -/
def markTelegramUpdateProcessed (ledger : List Int) (updateId : Int) :
    Bool × List Int :=
  if updateId ∈ ledger then (false, ledger) else (true, updateId :: ledger)

theorem markTelegramUpdateProcessed_first (ledger : List Int) (u : Int)
    (h : u ∉ ledger) : (markTelegramUpdateProcessed ledger u).1 = true := by
  simp [markTelegramUpdateProcessed, h]

theorem markTelegramUpdateProcessed_mem (ledger : List Int) (u : Int)
    (h : u ∈ ledger) : markTelegramUpdateProcessed ledger u = (false, ledger) := by
  simp [markTelegramUpdateProcessed, h]

/-- Marking never removes ids from the ledger. -/
theorem markTelegramUpdateProcessed_mono (ledger : List Int) (u v : Int)
    (h : u ∈ ledger) : u ∈ (markTelegramUpdateProcessed ledger v).2 := by
  unfold markTelegramUpdateProcessed
  by_cases hv : v ∈ ledger <;> simp [hv, h]

/-! ## Telegram webhook route (`api/src/app.ts`, `POST /telegram/webhook`)

The route body as shipped: webhook rate-limit check, secret-token check,
zod parse of the update, text/voice/audio presence check, idempotency mark,
and finally the enqueue.  The injected `rateLimit.checkWebhook` result is a
parameter of the request (the route only reads `allowed` and
`retryAfterSec`). -/

/-- Voice or audio attachment in a Telegram message (zod schema). -/
structure TelegramMedia where
  fileId : String
  mimeType : Option String
  deriving Repr, DecidableEq

/-- The message part of a parsed Telegram update (zod schema). -/
structure TelegramMessage where
  text : Option String
  voice : Option TelegramMedia
  audio : Option TelegramMedia
  chatId : Int
  fromId : Int
  fromUsername : Option String
  deriving Repr, DecidableEq

/-- A parsed Telegram update envelope (zod schema):
`{update_id, message?}`. -/
structure TelegramUpdate where
  updateId : Int
  message : Option TelegramMessage
  deriving Repr, DecidableEq

/-- Job media payload (`TelegramJobPayload.media`). -/
structure JobMedia where
  kind : String
  fileId : String
  mimeType : Option String
  deriving Repr, DecidableEq

/-- `TelegramJobPayload` from the queue module. -/
structure TelegramJobPayload where
  updateId : Int
  chatId : Int
  userId : Int
  username : Option String
  text : Option String
  media : Option JobMedia
  deriving Repr, DecidableEq

/-- A webhook HTTP request, after the framework layer: the secret-token
header, the body (`none` when the zod parse fails), and the injected
rate-limit verdict for the client's key. -/
structure WebhookRequest where
  secretHeader : Option String
  body : Option TelegramUpdate
  rateAllowed : Bool
  rateRetryAfterSec : Int
  deriving Repr, DecidableEq

/-- API-side state the webhook route touches: the idempotency ledger and
the main work queue (as the list of enqueued payloads, oldest first). -/
structure ApiState where
  ledger : List Int
  queue : List TelegramJobPayload
  deriving Repr, DecidableEq

/-- The route's JSON responses. -/
inductive WebhookResponse where
  | rateLimited (retryAfterSec : Int)
  | skipped
  | duplicate
  | accepted
  deriving Repr, DecidableEq

/-- `isWebhookAuthorized`: with no configured secret every request passes;
otherwise the header must equal the secret. -/
def isWebhookAuthorized (header : Option String) (webhookSecret : Option String) : Bool :=
  match webhookSecret with
  | none => true
  | some s => header == some s

/-- Media extraction in the route: voice wins over audio. -/
def webhookMedia (m : TelegramMessage) : Option JobMedia :=
  match m.voice with
  | some v => some ⟨"voice", v.fileId, v.mimeType⟩
  | none =>
    match m.audio with
    | some a => some ⟨"audio", a.fileId, a.mimeType⟩
    | none => none

/-- The `POST /telegram/webhook` handler: the guard chain in source order,
then mark-processed, then enqueue. -/
def handleWebhook (webhookSecret : Option String) (st : ApiState)
    (req : WebhookRequest) : WebhookResponse × ApiState :=
  if !req.rateAllowed then
    (.rateLimited req.rateRetryAfterSec, st)
  else if !isWebhookAuthorized req.secretHeader webhookSecret then
    (.skipped, st)
  else
    match req.body with
    | none => (.skipped, st)
    | some upd =>
      match upd.message with
      | none => (.skipped, st)
      | some msg =>
        if msg.text = none ∧ msg.voice = none ∧ msg.audio = none then
          (.skipped, st)
        else
          let marked := markTelegramUpdateProcessed st.ledger upd.updateId
          if !marked.1 then
            (.duplicate, st)
          else
            let payload : TelegramJobPayload :=
              ⟨upd.updateId, msg.chatId, msg.fromId, msg.fromUsername, msg.text, webhookMedia msg⟩
            (.accepted, ⟨marked.2, st.queue ++ [payload]⟩)

/-- Process a list of webhook deliveries in order. -/
def runWebhooks (webhookSecret : Option String) (st : ApiState) :
    List WebhookRequest → ApiState
  | [] => st
  | r :: rs => runWebhooks webhookSecret (handleWebhook webhookSecret st r).2 rs

/-- A request that passes the rate, secret, parse and content checks and
carries update id `u`. -/
def acceptableRequest (webhookSecret : Option String) (req : WebhookRequest) (u : Int) : Prop :=
  req.rateAllowed = true
  ∧ isWebhookAuthorized req.secretHeader webhookSecret = true
  ∧ ∃ upd msg, req.body = some upd ∧ upd.message = some msg ∧ upd.updateId = u
      ∧ ¬(msg.text = none ∧ msg.voice = none ∧ msg.audio = none)

/-- Run webhook deliveries collecting the responses as well. -/
def runWebhooksWithResponses (webhookSecret : Option String) (st : ApiState) :
    List WebhookRequest → List WebhookResponse × ApiState
  | [] => ([], st)
  | r :: rs =>
    let step := handleWebhook webhookSecret st r
    let rest := runWebhooksWithResponses webhookSecret step.2 rs
    (step.1 :: rest.1, rest.2)

theorem handleWebhook_accepts (secret : Option String) (st : ApiState)
    (r : WebhookRequest) (u : Int) (hr : acceptableRequest secret r u)
    (hnew : u ∉ st.ledger) :
    ∃ p : TelegramJobPayload, p.updateId = u
      ∧ handleWebhook secret st r = (.accepted, ⟨u :: st.ledger, st.queue ++ [p]⟩) := by
  obtain ⟨hrate, hauth, upd, msg, hbody, hmsg, huid, hcontent⟩ := hr
  refine ⟨⟨upd.updateId, msg.chatId, msg.fromId, msg.fromUsername, msg.text, webhookMedia msg⟩,
    huid, ?_⟩
  simp [handleWebhook, hrate, hauth, hbody, hmsg, hcontent,
    markTelegramUpdateProcessed, huid, hnew]

theorem handleWebhook_duplicate (secret : Option String) (st : ApiState)
    (r : WebhookRequest) (u : Int) (hr : acceptableRequest secret r u)
    (hold : u ∈ st.ledger) :
    handleWebhook secret st r = (.duplicate, st) := by
  obtain ⟨hrate, hauth, upd, msg, hbody, hmsg, huid, hcontent⟩ := hr
  simp [handleWebhook, hrate, hauth, hbody, hmsg, hcontent,
    markTelegramUpdateProcessed, huid, hold]

theorem runWebhooks_all_duplicate (secret : Option String) (st : ApiState)
    (u : Int) (reqs : List WebhookRequest)
    (hall : ∀ q ∈ reqs, acceptableRequest secret q u) (hold : u ∈ st.ledger) :
    runWebhooksWithResponses secret st reqs
      = (List.replicate reqs.length .duplicate, st) := by
  induction reqs with
  | nil => simp [runWebhooksWithResponses]
  | cons r rs ih =>
    have hr := hall r (by simp)
    have hstep := handleWebhook_duplicate secret st r u hr hold
    simp only [runWebhooksWithResponses, hstep]
    rw [ih (fun q hq => hall q (by simp [hq]))]
    simp [List.replicate_succ]

/-- C1: `markTelegramUpdateProcessed` is insert-if-absent — it returns
`true` exactly when the id was not in the ledger — and for a burst of
deliveries that all carry the same `updateId` and pass the route's guards,
the first gets `{ok:true}` and enqueues exactly one job, while every later
delivery gets `{ok:true, duplicate:true}` and changes nothing. -/
theorem webhook_duplicate_idempotency (secret : Option String) (st : ApiState)
    (u : Int) (r : WebhookRequest) (reqs : List WebhookRequest)
    (hnew : u ∉ st.ledger)
    (hr : acceptableRequest secret r u)
    (hall : ∀ q ∈ reqs, acceptableRequest secret q u) :
    (∀ l : List Int, (markTelegramUpdateProcessed l u).1 = !(decide (u ∈ l)))
    ∧ ∃ p : TelegramJobPayload, p.updateId = u
        ∧ runWebhooksWithResponses secret st (r :: reqs)
          = (.accepted :: List.replicate reqs.length .duplicate,
             ⟨u :: st.ledger, st.queue ++ [p]⟩) := by
  constructor
  · intro l
    by_cases h : u ∈ l <;> simp [markTelegramUpdateProcessed, h]
  · obtain ⟨p, hp, hstep⟩ := handleWebhook_accepts secret st r u hr hnew
    refine ⟨p, hp, ?_⟩
    simp only [runWebhooksWithResponses, hstep]
    rw [runWebhooks_all_duplicate secret ⟨u :: st.ledger, st.queue ++ [p]⟩ u reqs hall (by simp)]

/-- Witness for C1: secretless deployment, empty initial state, two
deliveries of update id `7` carrying the text `"hi"`: first accepted with
one enqueued job, second reported as duplicate. -/
theorem webhook_duplicate_idempotency_witness :
    ∃ p : TelegramJobPayload, p.updateId = 7
      ∧ runWebhooksWithResponses none ⟨[], []⟩
          [⟨none, some ⟨7, some ⟨some "hi", none, none, 5, 9, none⟩⟩, true, 0⟩,
           ⟨none, some ⟨7, some ⟨some "hi", none, none, 5, 9, none⟩⟩, true, 0⟩]
        = ([.accepted, .duplicate], ⟨[7], [p]⟩) := by
  have h := webhook_duplicate_idempotency none ⟨[], []⟩ 7
    ⟨none, some ⟨7, some ⟨some "hi", none, none, 5, 9, none⟩⟩, true, 0⟩
    [⟨none, some ⟨7, some ⟨some "hi", none, none, 5, 9, none⟩⟩, true, 0⟩]
    (by simp)
    (by exact ⟨rfl, rfl, _, _, rfl, rfl, rfl, by simp⟩)
    (by
      intro q hq
      simp only [List.mem_singleton] at hq
      subst hq
      exact ⟨rfl, rfl, _, _, rfl, rfl, rfl, by simp⟩)
  obtain ⟨p, hp, hrun⟩ := h.2
  exact ⟨p, hp, by simpa using hrun⟩

/-- C10: a webhook delivery rejected before acceptance — rate-limited,
secret mismatch, malformed body, message missing, or a message with no
text/voice/audio — leaves the idempotency ledger and the queue untouched
and never answers `accepted` or `duplicate`; consequently a later
compliant redelivery of the same update id is still accepted. -/
theorem webhook_reject_no_side_effects (secret : Option String) (st : ApiState)
    (req : WebhookRequest) (u : Int)
    (hrej : req.rateAllowed = false
      ∨ isWebhookAuthorized req.secretHeader secret = false
      ∨ req.body = none
      ∨ (∃ upd, req.body = some upd ∧ upd.message = none)
      ∨ (∃ upd msg, req.body = some upd ∧ upd.message = some msg
          ∧ msg.text = none ∧ msg.voice = none ∧ msg.audio = none)) :
    (handleWebhook secret st req).2 = st
    ∧ ((handleWebhook secret st req).1 = .rateLimited req.rateRetryAfterSec
        ∨ (handleWebhook secret st req).1 = .skipped)
    ∧ (∀ r', acceptableRequest secret r' u → u ∉ st.ledger →
        (handleWebhook secret (handleWebhook secret st req).2 r').1 = .accepted) := by
  have hmain : (handleWebhook secret st req).2 = st
      ∧ ((handleWebhook secret st req).1 = .rateLimited req.rateRetryAfterSec
          ∨ (handleWebhook secret st req).1 = .skipped) := by
    rcases hrej with h | h | h | ⟨upd, hb, hm⟩ | ⟨upd, msg, hb, hm, ht, hv, ha⟩
    · simp [handleWebhook, h]
    · by_cases hrate : req.rateAllowed <;> simp [handleWebhook, hrate, h]
    · by_cases hrate : req.rateAllowed <;>
        by_cases hauth : isWebhookAuthorized req.secretHeader secret <;>
        simp [handleWebhook, hrate, hauth, h]
    · by_cases hrate : req.rateAllowed <;>
        by_cases hauth : isWebhookAuthorized req.secretHeader secret <;>
        simp [handleWebhook, hrate, hauth, hb, hm]
    · by_cases hrate : req.rateAllowed <;>
        by_cases hauth : isWebhookAuthorized req.secretHeader secret <;>
        simp [handleWebhook, hrate, hauth, hb, hm, ht, hv, ha]
  refine ⟨hmain.1, hmain.2, ?_⟩
  intro r' hr' hnew
  rw [hmain.1]
  obtain ⟨p, _, hstep⟩ := handleWebhook_accepts secret st r' u hr' hnew
  rw [hstep]

/-- Witness for C10: a rate-limited delivery of update id `7` touches
nothing, and the redelivery is accepted. -/
theorem webhook_reject_no_side_effects_witness :
    (handleWebhook none ⟨[], []⟩ ⟨none, some ⟨7, some ⟨some "hi", none, none, 5, 9, none⟩⟩, false, 30⟩).2
      = ⟨[], []⟩
    ∧ (handleWebhook none
        (handleWebhook none ⟨[], []⟩
          ⟨none, some ⟨7, some ⟨some "hi", none, none, 5, 9, none⟩⟩, false, 30⟩).2
        ⟨none, some ⟨7, some ⟨some "hi", none, none, 5, 9, none⟩⟩, true, 0⟩).1 = .accepted := by
  have h := webhook_reject_no_side_effects none ⟨[], []⟩
    ⟨none, some ⟨7, some ⟨some "hi", none, none, 5, 9, none⟩⟩, false, 30⟩ 7
    (Or.inl rfl)
  exact ⟨h.1, h.2.2 ⟨none, some ⟨7, some ⟨some "hi", none, none, 5, 9, none⟩⟩, true, 0⟩
    ⟨rfl, rfl, _, _, rfl, rfl, rfl, by simp⟩ (by simp)⟩

/-! ## Local retry wrapper and error classifier (`workers/src/index.ts`)

JavaScript exceptions are modelled by their message string (every throw
site in the worker throws an `Error`; a non-`Error` throwable is classified
non-retryable by the source's `instanceof` guard and is outside this
model).  An operation is a function from the 1-based attempt number to that
attempt's outcome, which also captures operations whose behaviour varies
between attempts. -/

/-- What one `retryAsync` run did: final outcome, number of invocations of
the operation, and the waits (ms) slept before each retry. -/
structure RetryOutcome (α : Type) where
  result : Except String α
  attemptsUsed : Nat
  delays : List Nat

/-- The `while` loop of `retryAsync`, entered at attempt number
`attempt`: run the operation; on success return; on failure retry only
when the attempt budget remains and the classifier accepts the error,
sleeping `baseDelayMs * 2 ^ (attempt - 1)` first, otherwise rethrow the
error immediately. -/
def retryAsyncGo (op : Nat → Except String α) (shouldRetry : String → Bool)
    (baseDelayMs attempts attempt : Nat) : RetryOutcome α :=
  match op attempt with
  | .ok v => ⟨.ok v, attempt, []⟩
  | .error e =>
    if h : attempt < attempts ∧ shouldRetry e = true then
      { retryAsyncGo op shouldRetry baseDelayMs attempts (attempt + 1) with
        delays := baseDelayMs * 2 ^ (attempt - 1)
          :: (retryAsyncGo op shouldRetry baseDelayMs attempts (attempt + 1)).delays }
    else
      ⟨.error e, attempt, []⟩
  termination_by attempts - attempt
  decreasing_by omega

/-- `retryAsync`: run the loop starting at attempt 1.  With a zero attempt
budget the loop never runs and the (undefined) last error is thrown. -/
def retryAsync (op : Nat → Except String α) (shouldRetry : String → Bool)
    (baseDelayMs attempts : Nat) : RetryOutcome α :=
  if attempts = 0 then ⟨.error "undefined", 0, []⟩
  else retryAsyncGo op shouldRetry baseDelayMs attempts 1

/-- `isRetryableNetworkError`: lower-case the message, accept the network
and timeout markers, else accept messages matching
`/(408|409|425|429|500|502|503|504)/`. -/
def isRetryableNetworkError (msg : String) : Bool :=
  let m := jsToLower msg
  if includesSub m "fetch failed" || includesSub m "network" || includesSub m "timeout"
      || includesSub m "econnreset" || includesSub m "etimedout" || includesSub m "enotfound"
      || includesSub m "eai_again" || includesSub m "econnrefused" then
    true
  else
    includesSub m "408" || includesSub m "409" || includesSub m "425" || includesSub m "429"
      || includesSub m "500" || includesSub m "502" || includesSub m "503" || includesSub m "504"

/-- `isTimeoutError`: the lower-cased message mentions `timeout`. -/
def isTimeoutError (msg : String) : Bool :=
  includesSub (jsToLower msg) "timeout"

theorem isTimeoutError_retryable (msg : String) (h : isTimeoutError msg = true) :
    isRetryableNetworkError msg = true := by
  unfold isTimeoutError at h
  unfold isRetryableNetworkError
  simp only [h]
  simp

/-- A deterministically failing retryable operation is attempted
`attempts` times with geometric backoff, then its error is rethrown. -/
theorem retryAsyncGo_always_fail (op : Nat → Except String α) (msg : String)
    (sr : String → Bool) (base : Nat) (hsr : sr msg = true)
    (hop : ∀ k, op k = .error msg) :
    ∀ n attempts attempt, 1 ≤ attempt → attempt + n = attempts →
      retryAsyncGo op sr base attempts attempt
        = ⟨.error msg, attempts,
           (List.range n).map (fun i => base * 2 ^ (attempt - 1 + i))⟩ := by
  intro n
  induction n with
  | zero =>
    intro attempts attempt h1 hsum
    have hnlt : ¬ attempt < attempts := by omega
    rw [retryAsyncGo, hop attempt]
    simp only [hnlt, false_and, dite_false]
    simp [hsum.symm]
  | succ n ih =>
    intro attempts attempt h1 hsum
    have hlt : attempt < attempts := by omega
    rw [retryAsyncGo, hop attempt]
    simp only [hlt, hsr, true_and, and_self, dite_true]
    rw [ih attempts (attempt + 1) (by omega) (by omega)]
    have hlist : base * 2 ^ (attempt - 1)
        :: (List.range n).map (fun i => base * 2 ^ (attempt + 1 - 1 + i))
        = (List.range (n + 1)).map (fun i => base * 2 ^ (attempt - 1 + i)) := by
      rw [List.range_succ_eq_map, List.map_cons, List.map_map]
      refine congrArg₂ List.cons (by simp) (List.map_congr_left (fun i _ => ?_))
      show base * 2 ^ (attempt + 1 - 1 + i) = base * 2 ^ (attempt - 1 + (i + 1))
      have hx : attempt + 1 - 1 + i = attempt - 1 + (i + 1) := by omega
      rw [hx]
    rw [← hlist]

/-- C8: `retryAsync` consults the error classifier before every retry.  A
first-attempt error the classifier rejects is rethrown at once — one
invocation, no delay; a deterministically failing error the classifier
accepts is retried with waits `baseDelayMs * 2^(attempt-1)` until the
attempt cap, then rethrown; a first-attempt success is returned with no
retries. -/
theorem retryAsync_classifier_gates_retries (op : Nat → Except String α)
    (base attempts : Nat) (msg : String) (v : α) (hA : 1 ≤ attempts) :
    (isRetryableNetworkError msg = false → op 1 = .error msg →
      retryAsync op isRetryableNetworkError base attempts = ⟨.error msg, 1, []⟩)
    ∧ ((∀ k, op k = .error msg) → isRetryableNetworkError msg = true →
      retryAsync op isRetryableNetworkError base attempts
        = ⟨.error msg, attempts,
           (List.range (attempts - 1)).map (fun i => base * 2 ^ i)⟩)
    ∧ (op 1 = .ok v →
      retryAsync op isRetryableNetworkError base attempts = ⟨.ok v, 1, []⟩) := by
  have hA' : attempts ≠ 0 := by omega
  refine ⟨?_, ?_, ?_⟩
  · intro hcls hop
    rw [retryAsync]
    simp only [hA', ite_false]
    rw [retryAsyncGo, hop]
    simp [hcls]
  · intro hop hcls
    rw [retryAsync]
    simp only [hA', ite_false]
    rw [retryAsyncGo_always_fail op msg isRetryableNetworkError base hcls hop
      (attempts - 1) attempts 1 (by omega) (by omega)]
    simp
  · intro hop
    rw [retryAsync]
    simp only [hA', ite_false]
    rw [retryAsyncGo, hop]

/-- Witness for C8 with the worker's reporter parameters (base 800 ms, 3
attempts): a 400-class validation error is terminal (one attempt, no
waits), while a timeout message is retried with waits 800 and 1600 ms. -/
theorem retryAsync_classifier_gates_retries_witness :
    retryAsync (fun _ => (.error "Unexpected OpenRouter response 400" : Except String String))
        isRetryableNetworkError 800 3
      = ⟨.error "Unexpected OpenRouter response 400", 1, []⟩
    ∧ retryAsync (fun _ => (.error "OpenRouter timeout" : Except String String))
        isRetryableNetworkError 800 3
      = ⟨.error "OpenRouter timeout", 3, [800, 1600]⟩ := by
  have h1 := retryAsync_classifier_gates_retries
    (fun _ => (.error "Unexpected OpenRouter response 400" : Except String String))
    800 3 "Unexpected OpenRouter response 400" "ok" (by decide)
  have h2 := retryAsync_classifier_gates_retries
    (fun _ => (.error "OpenRouter timeout" : Except String String))
    800 3 "OpenRouter timeout" "ok" (by decide)
  refine ⟨h1.1 (by decide) rfl, ?_⟩
  have := h2.2.1 (fun _ => rfl) (by decide)
  rw [this]
  rfl

/-! ## Reporter fallback (`buildAnswer` in `workers/src/index.ts`) -/

/-- `FALLBACK_REPLY` from the worker. -/
def FALLBACK_REPLY : String :=
  "Сейчас временно не удалось сформировать ответ. Попробуйте еще раз через 20-30 секунд."

/-- `FALLBACK_REPLY_TIMEOUT` from the worker. -/
def FALLBACK_REPLY_TIMEOUT : String :=
  "Сервис сейчас отвечает слишком медленно. Я сохранил контекст, попробуйте повторить сообщение через 20-30 секунд."

/-- `TELEGRAM_MESSAGE_MAX_LENGTH` from the worker. -/
def TELEGRAM_MESSAGE_MAX_LENGTH : Nat := 4000

/-- `clampTelegramText`: truncate to the Telegram limit with an ellipsis. -/
def clampTelegramText (text : String) : String :=
  if text.length ≤ TELEGRAM_MESSAGE_MAX_LENGTH then text
  else ⟨text.data.take (TELEGRAM_MESSAGE_MAX_LENGTH - 3)⟩ ++ "..."

/-- `buildAnswer`: the reporter call under `retryAsync` (3 attempts, base
800 ms, classifier `isRetryableNetworkError`); on an exhausted or terminal
error the catch substitutes `FALLBACK_REPLY_TIMEOUT` for timeout-caused
errors and `FALLBACK_REPLY` otherwise, returning normally in either case.
`op k` is the outcome of the `k`-th reporter attempt (the
`withTimeout`-wrapped OpenRouter call). -/
def buildAnswer (op : Nat → Except String String) : Except String String :=
  match (retryAsync op isRetryableNetworkError 800 3).result with
  | .ok v => .ok v
  | .error e => .ok (if isTimeoutError e then FALLBACK_REPLY_TIMEOUT else FALLBACK_REPLY)

/-- C7: when every reporter attempt fails with a timeout-classified error,
`buildAnswer` completes normally (it does not fail the job attempt) with
exactly the timeout fallback string, which is distinct from the generic
fallback, and the text then sent to the user — after the Telegram length
clamp — is that same timeout fallback string. -/
theorem buildAnswer_timeout_fallback (op : Nat → Except String String)
    (msg : String) (hop : ∀ k, op k = .error msg)
    (htimeout : isTimeoutError msg = true) :
    buildAnswer op = .ok FALLBACK_REPLY_TIMEOUT
    ∧ FALLBACK_REPLY_TIMEOUT ≠ FALLBACK_REPLY
    ∧ clampTelegramText FALLBACK_REPLY_TIMEOUT = FALLBACK_REPLY_TIMEOUT := by
  have hcls := isTimeoutError_retryable msg htimeout
  have hrun : retryAsync op isRetryableNetworkError 800 3 = ⟨.error msg, 3, [800, 1600]⟩ := by
    rw [retryAsync, if_neg (by decide : ¬ (3 : Nat) = 0)]
    rw [retryAsyncGo_always_fail op msg isRetryableNetworkError 800 hcls hop 2 3 1
      (by omega) (by omega)]
    rfl
  refine ⟨?_, by decide, by decide⟩
  rw [buildAnswer, hrun]
  simp [htimeout]

/-- Witness for C7: the literal `withTimeout` message `"OpenRouter
timeout"` on every attempt yields the timeout fallback. -/
theorem buildAnswer_timeout_fallback_witness :
    buildAnswer (fun _ => .error "OpenRouter timeout") = .ok FALLBACK_REPLY_TIMEOUT
    ∧ FALLBACK_REPLY_TIMEOUT ≠ FALLBACK_REPLY := by
  have h := buildAnswer_timeout_fallback (fun _ => .error "OpenRouter timeout")
    "OpenRouter timeout" (fun _ => rfl) (by decide)
  exact ⟨h.1, h.2.1⟩

/-! ## Queue retry policy and dead-letter channel (queue module +
`startWorker` in `workers/src/index.ts`)

`createTelegramQueue` configures BullMQ with `attempts: 3` and exponential
backoff of base 1000 ms, so a job whose handler throws is re-run until 3
attempts have been made, waiting `1000 * 2^(k-1)` ms after failed attempt
`k`.  The worker's job handler wraps `processTelegramJob` in a `catch`
that enqueues a `TelegramDlqJobPayload` onto the DLQ queue and rethrows;
the rethrow is what triggers the queue-level retry. -/

/-- `attempts` of `createTelegramQueue`'s default job options. -/
def telegramQueueAttempts : Nat := 3

/-- Exponential backoff base delay (ms) of `createTelegramQueue`. -/
def telegramQueueBackoffMs : Nat := 1000

/-- `TelegramDlqJobPayload` from the queue module. -/
structure TelegramDlqJobPayload where
  originalJobId : String
  originalQueue : String
  attemptsMade : Nat
  failedAt : String
  errorMessage : String
  payload : TelegramJobPayload
  deriving Repr, DecidableEq

/-- One run of the worker's job handler (the `catch` in `startWorker`):
on success the DLQ is untouched; on failure a dead-letter entry is pushed
and the error is rethrown.  `attemptsMade` is BullMQ's count of attempts
made before this run, i.e. `k - 1` on the `k`-th attempt. -/
def workerHandleAttempt (outcome : Except String Unit) (payload : TelegramJobPayload)
    (jobId : String) (attemptsMade : Nat) (failedAt : String)
    (dlq : List TelegramDlqJobPayload) :
    Except String Unit × List TelegramDlqJobPayload :=
  match outcome with
  | .ok _ => (.ok (), dlq)
  | .error e => (.error e, dlq ++ [⟨jobId, "telegram-jobs", attemptsMade, failedAt, e, payload⟩])

/-- Result of driving one job to completion through the queue's retry
policy. -/
structure JobRunResult where
  succeeded : Bool
  attemptsExecuted : Nat
  dlq : List TelegramDlqJobPayload
  backoffDelaysMs : List Nat
  deriving Repr, DecidableEq

/-- BullMQ attempt loop at attempt `k` with `remaining` attempts still
allowed (current one included): run the worker handler; on a rethrown
error retry after the exponential backoff (`1000 * 2^(k-1)` ms) while
further attempts remain, otherwise leave the job failed. -/
def runJobGo (outcome : Nat → Except String Unit) (payload : TelegramJobPayload)
    (jobId : String) (clock : Nat → String) (dlq : List TelegramDlqJobPayload)
    (k : Nat) : Nat → JobRunResult
  | 0 => ⟨false, k - 1, dlq, []⟩
  | remaining + 1 =>
    match workerHandleAttempt (outcome k) payload jobId (k - 1) (clock k) dlq with
    | (.ok _, dlq') => ⟨true, k, dlq', []⟩
    | (.error _, dlq') =>
      if remaining = 0 then ⟨false, k, dlq', []⟩
      else
        { runJobGo outcome payload jobId clock dlq' (k + 1) remaining with
          backoffDelaysMs := telegramQueueBackoffMs * 2 ^ (k - 1)
            :: (runJobGo outcome payload jobId clock dlq' (k + 1) remaining).backoffDelaysMs }

/-- Drive one freshly enqueued telegram job to completion under the
configured policy (`attempts = 3`, exponential backoff base 1000 ms). -/
def runTelegramJob (outcome : Nat → Except String Unit) (payload : TelegramJobPayload)
    (jobId : String) (clock : Nat → String) : JobRunResult :=
  runJobGo outcome payload jobId clock [] 1 telegramQueueAttempts

/-- A concrete job payload used by the closed counterexample runs. -/
def sampleJobPayload : TelegramJobPayload :=
  ⟨7, 5, 9, none, some "hi", none⟩

/-- C2, counterexample: the claim says a deterministically failing job
produces exactly one dead-letter entry, and only after the final attempt.
In the code the worker's `catch` pushes a DLQ entry on every failed
attempt before rethrowing: a job failing on all 3 attempts ends with 3
dead-letter entries, and already after the first attempt — with two
retries still to come — the DLQ holds an entry. -/
theorem dlq_entry_per_failed_attempt_counterexample :
    (runTelegramJob (fun _ => .error "boom") sampleJobPayload "1" (fun _ => "t")).dlq.length = 3
    ∧ ¬ (runTelegramJob (fun _ => .error "boom") sampleJobPayload "1" (fun _ => "t")).dlq.length = 1
    ∧ (workerHandleAttempt (.error "boom") sampleJobPayload "1" 0 "t" []).2.length = 1 := by
  refine ⟨rfl, by decide, rfl⟩

/-- C2, amended: a job whose processing fails deterministically on every
attempt is executed exactly the configured 3 attempts, with exponential
backoff `1000 * 2^(k-1)` ms after failed attempt `k`, and one
`DeadLetterEntry` is enqueued per failed attempt — 3 entries in total, the
first already after the first failed attempt — each carrying the original
payload and error message. -/
theorem dlq_entry_per_failed_attempt (msg : String) (payload : TelegramJobPayload)
    (jobId : String) (clock : Nat → String)
    (outcome : Nat → Except String Unit) (hfail : ∀ k, outcome k = .error msg) :
    runTelegramJob outcome payload jobId clock
      = ⟨false, 3,
         [⟨jobId, "telegram-jobs", 0, clock 1, msg, payload⟩,
          ⟨jobId, "telegram-jobs", 1, clock 2, msg, payload⟩,
          ⟨jobId, "telegram-jobs", 2, clock 3, msg, payload⟩],
         [1000, 2000]⟩ := by
  rw [runTelegramJob]
  show runJobGo outcome payload jobId clock [] 1 3 = _
  rw [runJobGo]
  simp only [hfail 1, workerHandleAttempt]
  rw [runJobGo]
  simp only [hfail 2, workerHandleAttempt]
  rw [runJobGo]
  simp only [hfail 3, workerHandleAttempt]
  simp [telegramQueueBackoffMs]

/-- Witness for C2 (amended) at a concrete failing job. -/
theorem dlq_entry_per_failed_attempt_witness :
    runTelegramJob (fun _ => .error "boom") sampleJobPayload "1" (fun _ => "t")
      = ⟨false, 3,
         [⟨"1", "telegram-jobs", 0, "t", "boom", sampleJobPayload⟩,
          ⟨"1", "telegram-jobs", 1, "t", "boom", sampleJobPayload⟩,
          ⟨"1", "telegram-jobs", 2, "t", "boom", sampleJobPayload⟩],
         [1000, 2000]⟩ :=
  dlq_entry_per_failed_attempt "boom" sampleJobPayload "1" (fun _ => "t")
    (fun _ => .error "boom") (fun _ => rfl)

/-! ## DLQ requeue (`requeueDlqJob` in the queue module, plus the admin
route)

The DLQ is the list of `(bullJobId, TelegramDlqJobPayload)` pairs, the
main queue the list of its payloads.  `requeueDlqJob` performs three
awaited Redis operations in order: `getJob`, `mainQueue.add`,
`job.remove()`.  Each `await` is a suspension point, so concurrent HTTP
handlers interleave between them. -/

/-- Shared queue state seen by `requeueDlqJob`. -/
structure DlqQueueState where
  dlq : List (String × TelegramDlqJobPayload)
  main : List TelegramJobPayload
  deriving Repr, DecidableEq

/-- `dlqQueue.getJob(jobId)`. -/
def dlqGetJob (st : DlqQueueState) (jobId : String) : Option TelegramDlqJobPayload :=
  (st.dlq.find? (fun e => e.1 == jobId)).map (·.2)

/-- `mainQueue.add('requeued-message', payload)`. -/
def mainQueueAdd (st : DlqQueueState) (p : TelegramJobPayload) : DlqQueueState :=
  { st with main := st.main ++ [p] }

/-- `job.remove()`: delete the DLQ job with this id. -/
def dlqRemoveJob (st : DlqQueueState) (jobId : String) : DlqQueueState :=
  { st with dlq := st.dlq.filter (fun e => !(e.1 == jobId)) }

/-- `requeueDlqJob`, run without interleaving: get, then add, then
remove. -/
def requeueDlqJob (st : DlqQueueState) (jobId : String) : Bool × DlqQueueState :=
  match dlqGetJob st jobId with
  | none => (false, st)
  | some entry => (true, dlqRemoveJob (mainQueueAdd st entry.payload) jobId)

/-- HTTP status of `POST /admin/queue/dlq/requeue/:jobId` as a function of
`requeueDlqJob`'s return value. -/
def adminRequeueStatus (moved : Bool) : Nat :=
  if moved then 200 else 404

/-- Program counter of one in-flight `requeueDlqJob` call. -/
inductive RequeuePc where
  | atGet
  | atAdd
  | atRemove
  | finished
  deriving Repr, DecidableEq

/-- One in-flight `requeueDlqJob` call: where it is, what its `getJob`
returned, and its eventual return value. -/
structure RequeueThread where
  pc : RequeuePc
  jobId : String
  found : Option TelegramDlqJobPayload
  ret : Option Bool
  deriving Repr, DecidableEq

/-- Run one suspension-to-suspension step of a `requeueDlqJob` call
against the shared state. -/
def requeueThreadStep (st : DlqQueueState) (t : RequeueThread) :
    DlqQueueState × RequeueThread :=
  match t.pc with
  | .atGet =>
    match dlqGetJob st t.jobId with
    | none => (st, { t with pc := .finished, ret := some false })
    | some entry => (st, { t with pc := .atAdd, found := some entry })
  | .atAdd =>
    match t.found with
    | some entry => (mainQueueAdd st entry.payload, { t with pc := .atRemove })
    | none => (st, { t with pc := .finished })
  | .atRemove => (dlqRemoveJob st t.jobId, { t with pc := .finished, ret := some true })
  | .finished => (st, t)

/-- Run two concurrent `requeueDlqJob` calls under an explicit schedule
(`false` steps thread A, `true` steps thread B). -/
def runRequeueSchedule : List Bool → DlqQueueState → RequeueThread → RequeueThread →
    DlqQueueState × RequeueThread × RequeueThread
  | [], st, a, b => (st, a, b)
  | false :: rest, st, a, b =>
    let s := requeueThreadStep st a
    runRequeueSchedule rest s.1 s.2 b
  | true :: rest, st, a, b =>
    let s := requeueThreadStep st b
    runRequeueSchedule rest s.1 a s.2

/-- A fresh `requeueDlqJob jobId` call about to issue its `getJob`. -/
def freshRequeueThread (jobId : String) : RequeueThread :=
  ⟨.atGet, jobId, none, none⟩

/-- Sample dead-letter entry used in the concrete runs. -/
def sampleDlqEntry : TelegramDlqJobPayload :=
  ⟨"42", "telegram-jobs", 3, "t", "boom", sampleJobPayload⟩

/-- C4, counterexample: two concurrent `requeueDlqJob "42"` calls that
both pass `getJob` before either removes the entry (schedule A:get,
B:get, A:add, A:remove, B:add, B:remove) both return `true` and enqueue
the payload twice — the remove-and-re-enqueue is not atomic, so the
operation is not safe to call concurrently as the claim requires. -/
theorem requeueDlqJob_concurrent_double_enqueue_counterexample :
    (runRequeueSchedule [false, true, false, false, true, true]
        ⟨[("42", sampleDlqEntry)], []⟩
        (freshRequeueThread "42") (freshRequeueThread "42"))
      = (⟨[], [sampleJobPayload, sampleJobPayload]⟩,
         ⟨.finished, "42", some sampleDlqEntry, some true⟩,
         ⟨.finished, "42", some sampleDlqEntry, some true⟩) := by
  rfl

/-- C4, amended: without interleaving the claim holds — `requeueDlqJob` on
an existing entry re-enqueues the embedded payload once, removes the
entry, and returns `true`; a second sequential call returns `false`,
enqueues nothing, and the admin endpoint then answers 404.  (The
concurrent-safety half of the claim is refuted by the counterexample.) -/
theorem requeueDlqJob_sequential (st : DlqQueueState) (jobId : String)
    (entry : TelegramDlqJobPayload) (hfound : dlqGetJob st jobId = some entry) :
    (requeueDlqJob st jobId).1 = true
    ∧ (requeueDlqJob st jobId).2.main = st.main ++ [entry.payload]
    ∧ dlqGetJob (requeueDlqJob st jobId).2 jobId = none
    ∧ requeueDlqJob (requeueDlqJob st jobId).2 jobId
        = (false, (requeueDlqJob st jobId).2)
    ∧ adminRequeueStatus (requeueDlqJob (requeueDlqJob st jobId).2 jobId).1 = 404 := by
  have hafter : dlqGetJob (requeueDlqJob st jobId).2 jobId = none := by
    simp only [requeueDlqJob, hfound]
    simp [dlqGetJob, dlqRemoveJob, mainQueueAdd, List.find?_filter]
  have hsecond : requeueDlqJob (requeueDlqJob st jobId).2 jobId
      = (false, (requeueDlqJob st jobId).2) := by
    generalize hgen : (requeueDlqJob st jobId).2 = st1 at hafter
    simp [requeueDlqJob, hafter]
  refine ⟨?_, ?_, hafter, hsecond, ?_⟩
  · simp [requeueDlqJob, hfound]
  · simp [requeueDlqJob, hfound, dlqRemoveJob, mainQueueAdd]
  · rw [hsecond]
    simp [adminRequeueStatus]

/-- Witness for C4 (amended) on a one-entry DLQ. -/
theorem requeueDlqJob_sequential_witness :
    (requeueDlqJob ⟨[("42", sampleDlqEntry)], []⟩ "42").1 = true
    ∧ (requeueDlqJob ⟨[("42", sampleDlqEntry)], []⟩ "42").2.main = [sampleJobPayload]
    ∧ adminRequeueStatus
        (requeueDlqJob (requeueDlqJob ⟨[("42", sampleDlqEntry)], []⟩ "42").2 "42").1 = 404 := by
  have h := requeueDlqJob_sequential ⟨[("42", sampleDlqEntry)], []⟩ "42" sampleDlqEntry rfl
  exact ⟨h.1, by simpa using h.2.1, h.2.2.2.2⟩

/-! ## Morning summary (digest) job (`processMorningSummaryJob` in
`workers/src/index.ts`, `recordTelegramDailySummarySent` in
`shared/src/reports.ts`)

`telegram_daily_summaries` has a unique index on
`(chat_id, summary_date)`; `recordTelegramDailySummarySent` inserts with
`ON CONFLICT DO NOTHING RETURNING`.  The per-chat loop body: skip when a
marker exists, skip when the window has no reports, otherwise send the
summary over Telegram (a failing send throws and aborts the job attempt
before anything is persisted for this chat), append the assistant history
row, and only then insert the marker. -/

/-- A `telegram_daily_summaries` row (with the columns the claims
observe). -/
structure DailySummaryRow where
  chatId : Int
  userId : Int
  summaryDate : String
  reportsCount : Nat
  summaryText : String
  deriving Repr, DecidableEq

/-- Worker-side state touched by one digest chat: the marker table, the
Telegram messages actually delivered, and the chat-history rows. -/
structure DigestState where
  summaries : List DailySummaryRow
  deliveries : List (Int × String)
  history : List (Int × String)
  deriving Repr, DecidableEq

/-- `hasTelegramDailySummaryForDate`: does a marker row exist for this
`(chat_id, summary_date)`? -/
def hasTelegramDailySummaryForDate (rows : List DailySummaryRow) (chatId : Int)
    (date : String) : Bool :=
  rows.any (fun r => r.chatId == chatId && r.summaryDate == date)

/-- `recordTelegramDailySummarySent`: insert-if-absent on
`(chat_id, summary_date)`; `true` iff a row was inserted. -/
def recordTelegramDailySummarySent (rows : List DailySummaryRow) (row : DailySummaryRow) :
    Bool × List DailySummaryRow :=
  if hasTelegramDailySummaryForDate rows row.chatId row.summaryDate then (false, rows)
  else (true, rows ++ [row])

/-- Count of marker rows for one `(chat_id, summary_date)` key. -/
def dailySummaryMarkerCount (rows : List DailySummaryRow) (chatId : Int)
    (date : String) : Nat :=
  (rows.filter (fun r => r.chatId == chatId && r.summaryDate == date)).length

/-- The digest loop body for one chat.  `reportsCount` is the size of the
window's report list, `messageText` the clamped summary text, and
`sendOk` whether `sendTelegramMessage` (after its local retries)
succeeds; a failed send throws, so nothing for this chat is recorded. -/
def processChatDigest (st : DigestState) (chatId userId : Int) (date : String)
    (reportsCount : Nat) (messageText : String) (sendOk : Bool) :
    Except String DigestState :=
  if hasTelegramDailySummaryForDate st.summaries chatId date then
    .ok st
  else if reportsCount = 0 then
    .ok st
  else if !sendOk then
    .error "telegram send failed"
  else
    .ok { summaries := (recordTelegramDailySummarySent
            { st with
              deliveries := st.deliveries ++ [(chatId, messageText)],
              history := st.history ++ [(chatId, messageText)] }.summaries
            ⟨chatId, userId, date, reportsCount, messageText⟩).2,
          deliveries := st.deliveries ++ [(chatId, messageText)],
          history := st.history ++ [(chatId, messageText)] }

/-- C5: running the digest for the same `(chatId, summaryDate)` twice
sends at most one message and leaves at most one marker row — the second
run hits the guard and is a no-op — and the marker is only written after
a successful delivery: with the send failing, the run aborts with no
marker and no delivered message. -/
theorem digest_double_run_guard (st : DigestState) (c u : Int) (d text : String)
    (n : Nat) (hmark : hasTelegramDailySummaryForDate st.summaries c d = false)
    (hn : 0 < n) :
    ∃ st1, processChatDigest st c u d n text true = .ok st1
      ∧ processChatDigest st1 c u d n text true = .ok st1
      ∧ dailySummaryMarkerCount st1.summaries c d
          = dailySummaryMarkerCount st.summaries c d + 1
      ∧ st1.deliveries = st.deliveries ++ [(c, text)]
      ∧ processChatDigest st c u d n text false = .error "telegram send failed" := by
  have hn' : ¬ n = 0 := by omega
  refine ⟨{ summaries := st.summaries ++ [⟨c, u, d, n, text⟩],
            deliveries := st.deliveries ++ [(c, text)],
            history := st.history ++ [(c, text)] }, ?_, ?_, ?_, rfl, ?_⟩
  · simp [processChatDigest, hmark, hn', recordTelegramDailySummarySent]
  · have hmark1 : hasTelegramDailySummaryForDate (st.summaries ++ [⟨c, u, d, n, text⟩]) c d
        = true := by
      simp [hasTelegramDailySummaryForDate]
    simp [processChatDigest, hmark1]
  · simp [dailySummaryMarkerCount, List.filter_append]
  · simp [processChatDigest, hmark, hn']

/-- Witness for C5: chat 1 on date `"2026-10-12"`, two reports, run twice
from an empty state. -/
theorem digest_double_run_guard_witness :
    ∃ st1, processChatDigest ⟨[], [], []⟩ 1 2 "2026-10-12" 2 "digest" true = .ok st1
      ∧ processChatDigest st1 1 2 "2026-10-12" 2 "digest" true = .ok st1
      ∧ dailySummaryMarkerCount st1.summaries 1 "2026-10-12" = 1
      ∧ st1.deliveries = [(1, "digest")] := by
  obtain ⟨st1, h1, h2, h3, h4, _⟩ :=
    digest_double_run_guard ⟨[], [], []⟩ 1 2 "2026-10-12" "digest" 2 rfl (by decide)
  exact ⟨st1, h1, h2, by simpa using h3, by simpa using h4⟩

/-! ## Coach-mode recommendation (`recommendCoachMode` in
`workers/src/index.ts`)

The seven coach modes of `shared/src/profiles.ts` / `strategies.ts`. -/

inductive CoachMode where
  | reality_check
  | cbt_patterns
  | self_sabotage
  | behavioral_activation
  | anxiety_grounding
  | decision_clarity
  | post_failure_reset
  deriving Repr, DecidableEq

/-- `getCoachStrategy(mode).mode`: every entry of the strategy table in
`strategies.ts` carries its own key as its `mode` field. -/
def getCoachStrategyMode : CoachMode → CoachMode
  | .reality_check => .reality_check
  | .cbt_patterns => .cbt_patterns
  | .self_sabotage => .self_sabotage
  | .behavioral_activation => .behavioral_activation
  | .anxiety_grounding => .anxiety_grounding
  | .decision_clarity => .decision_clarity
  | .post_failure_reset => .post_failure_reset

theorem getCoachStrategyMode_eq (m : CoachMode) : getCoachStrategyMode m = m := by
  cases m <;> rfl

/-- One row of the fixed `scoringRules` table. -/
structure ScoringRule where
  mode : CoachMode
  keywords : List String
  reason : String
  deriving Repr, DecidableEq

def ruleAnxietyGrounding : ScoringRule :=
  ⟨.anxiety_grounding, ["тревог", "паник", "страх", "накруч", "беспокой", "ужас"],
   "в сообщении много признаков тревожной спирали и эмоционального перегруза."⟩

def ruleSelfSabotage : ScoringRule :=
  ⟨.self_sabotage, ["прокраст", "отклады", "срыва", "сабот", "сливаю", "не делаю"],
   "похоже на цикл самосаботажа: есть важные задачи, но действие постоянно блокируется."⟩

def ruleCbtPatterns : ScoringRule :=
  ⟨.cbt_patterns, ["негатив", "искажен", "самокрит", "вина", "стыд", "я всегда", "я никогда"],
   "звучат устойчивые негативные мысли и когнитивные искажения, которые лучше разбирать через CBT."⟩

def ruleBehavioralActivation : ScoringRule :=
  ⟨.behavioral_activation, ["апат", "нет сил", "устал", "выгор", "не хочу ничего", "нет мотива"],
   "основная проблема похожа на низкую энергию и потерю импульса к действиям."⟩

def ruleDecisionClarity : ScoringRule :=
  ⟨.decision_clarity, ["выбор", "решени", "вариант", "дилем", "сомнева", "не могу решить"],
   "в фокусе именно выбор и неопределенность между вариантами."⟩

def rulePostFailureReset : ScoringRule :=
  ⟨.post_failure_reset, ["ошибк", "провал", "сорвал", "накосячил", "облажал", "срыв"],
   "контекст похож на состояние после неудачи, где нужен быстрый и бережный перезапуск."⟩

def ruleRealityCheck : ScoringRule :=
  ⟨.reality_check, ["факт", "реальн", "объектив", "катастроф", "преувелич", "накрутил"],
   "полезно сначала отделить факты от интерпретаций и снизить искажения восприятия."⟩

/-- The `scoringRules` table, in source order. -/
def scoringRules : List ScoringRule :=
  [ruleAnxietyGrounding, ruleSelfSabotage, ruleCbtPatterns, ruleBehavioralActivation,
   ruleDecisionClarity, rulePostFailureReset, ruleRealityCheck]

/-- A rule's score: the number of its keywords occurring as substrings of
the (already lower-cased) text. -/
def keywordScore (normalized : String) (rule : ScoringRule) : Nat :=
  rule.keywords.foldl (fun acc k => if includesSub normalized k then acc + 1 else acc) 0

/-- One step of the `best` fold: strictly greater score replaces the
incumbent. -/
def pickBestStep (normalized : String) (best : CoachMode × Nat × String)
    (rule : ScoringRule) : CoachMode × Nat × String :=
  if keywordScore normalized rule > best.2.1 then
    (rule.mode, keywordScore normalized rule, rule.reason)
  else best

def pickBest (normalized : String) (rules : List ScoringRule)
    (best : CoachMode × Nat × String) : CoachMode × Nat × String :=
  rules.foldl (pickBestStep normalized) best

/-- Initial `best` of the source: the baseline mode at score 0. -/
def initialBest : CoachMode × Nat × String :=
  (.reality_check, 0, "это самый универсальный стартовый режим.")

/-- `recommendCoachMode`: lower-case the text, fold the scoring table,
and return the winning strategy's mode together with the stored reason. -/
def recommendCoachMode (text : String) : CoachMode × String :=
  (getCoachStrategyMode (pickBest (jsToLower text) scoringRules initialBest).1,
   (pickBest (jsToLower text) scoringRules initialBest).2.2)

/-- Greatest rule score over a rule list. -/
def maxKeywordScore (normalized : String) (rules : List ScoringRule) : Nat :=
  rules.foldr (fun r acc => max (keywordScore normalized r) acc) 0

theorem le_maxKeywordScore (n : String) (rules : List ScoringRule) :
    ∀ r ∈ rules, keywordScore n r ≤ maxKeywordScore n rules := by
  induction rules with
  | nil => simp
  | cons r t ih =>
    intro x hx
    rcases List.mem_cons.mp hx with h | h
    · subst h
      simp [maxKeywordScore]
    · calc keywordScore n x ≤ maxKeywordScore n t := ih x h
        _ ≤ maxKeywordScore n (r :: t) := by simp [maxKeywordScore]

theorem pickBest_of_all_le (n : String) (rules : List ScoringRule)
    (best : CoachMode × Nat × String)
    (h : ∀ r ∈ rules, keywordScore n r ≤ best.2.1) :
    pickBest n rules best = best := by
  induction rules generalizing best with
  | nil => rfl
  | cons r t ih =>
    have hr : keywordScore n r ≤ best.2.1 := h r (by simp)
    have hstep : pickBestStep n best r = best := by
      simp [pickBestStep]
      omega
    show pickBest n t (pickBestStep n best r) = best
    rw [hstep]
    exact ih best (fun x hx => h x (by simp [hx]))

/-- The strict-improvement fold selects the first rule attaining the
maximal score, whenever that maximum beats the incumbent. -/
theorem pickBest_firstMax (n : String) :
    ∀ (rules : List ScoringRule) (best : CoachMode × Nat × String) (M : Nat),
      maxKeywordScore n rules = M → best.2.1 < M →
      ∃ r, rules.find? (fun x => decide (M ≤ keywordScore n x)) = some r
        ∧ pickBest n rules best = (r.mode, keywordScore n r, r.reason)
        ∧ keywordScore n r = M := by
  intro rules
  induction rules with
  | nil =>
    intro best M hM hlt
    simp [maxKeywordScore] at hM
    omega
  | cons r t ih =>
    intro best M hM hlt
    have hcons : maxKeywordScore n (r :: t) = max (keywordScore n r) (maxKeywordScore n t) := rfl
    by_cases hsplit : maxKeywordScore n t ≤ keywordScore n r
    · have hMr : M = keywordScore n r := by
        rw [← hM, hcons]
        omega
      refine ⟨r, ?_, ?_, hMr.symm⟩
      · rw [List.find?_cons_of_pos]
        simp [hMr]
      · have hgt : keywordScore n r > best.2.1 := by omega
        have hstep : pickBestStep n best r = (r.mode, keywordScore n r, r.reason) := by
          simp [pickBestStep, hgt]
        show pickBest n t (pickBestStep n best r) = _
        rw [hstep]
        exact pickBest_of_all_le n t _ (fun x hx => by
          have := le_maxKeywordScore n t x hx
          simp
          omega)
    · push_neg at hsplit
      have hMt : maxKeywordScore n t = M := by
        rw [← hM, hcons]
        omega
      have hrM : keywordScore n r < M := by omega
      have hfind : (r :: t).find? (fun x => decide (M ≤ keywordScore n x))
          = t.find? (fun x => decide (M ≤ keywordScore n x)) := by
        rw [List.find?_cons_of_neg]
        simp
        omega
      by_cases hgt : keywordScore n r > best.2.1
      · have hstep : pickBestStep n best r = (r.mode, keywordScore n r, r.reason) := by
          simp [pickBestStep, hgt]
        obtain ⟨r', h1, h2, h3⟩ := ih (r.mode, keywordScore n r, r.reason) M hMt (by simpa using hrM)
        refine ⟨r', by rw [hfind]; exact h1, ?_, h3⟩
        show pickBest n t (pickBestStep n best r) = _
        rw [hstep]
        exact h2
      · have hstep : pickBestStep n best r = best := by
          simp [pickBestStep]
          omega
        obtain ⟨r', h1, h2, h3⟩ := ih best M hMt hlt
        refine ⟨r', by rw [hfind]; exact h1, ?_, h3⟩
        show pickBest n t (pickBestStep n best r) = _
        rw [hstep]
        exact h2

/-- The selection rule the code actually implements, stated
declaratively: the first table rule attaining the (positive) maximal
keyword score wins; when every rule scores zero the baseline
`reality_check` is returned. -/
def recommendCoachModeSpec (text : String) : CoachMode :=
  if maxKeywordScore (jsToLower text) scoringRules = 0 then .reality_check
  else
    match scoringRules.find?
        (fun x => decide (maxKeywordScore (jsToLower text) scoringRules ≤ keywordScore (jsToLower text) x)) with
    | some r => r.mode
    | none => .reality_check

/-- C9 (amended): `recommendCoachMode` is the deterministic keyword-scored
argmax over the fixed table — substring scores on the lower-cased text,
highest score wins, a zero-score field falls back to the baseline
`reality_check` — but ties between distinct modes are broken by table
order (earliest rule wins), not by falling back to the baseline. -/
theorem recommendCoachMode_first_max (text : String) :
    (recommendCoachMode text).1 = recommendCoachModeSpec text := by
  by_cases h0 : maxKeywordScore (jsToLower text) scoringRules = 0
  · have hall : ∀ r ∈ scoringRules, keywordScore (jsToLower text) r ≤ initialBest.2.1 := by
      intro r hr
      have := le_maxKeywordScore (jsToLower text) scoringRules r hr
      simp [initialBest]
      omega
    rw [recommendCoachMode]
    rw [pickBest_of_all_le _ _ _ hall]
    simp [recommendCoachModeSpec, h0, initialBest, getCoachStrategyMode]
  · obtain ⟨r, h1, h2, h3⟩ := pickBest_firstMax (jsToLower text) scoringRules initialBest
      (maxKeywordScore (jsToLower text) scoringRules) rfl
      (by simp [initialBest]; omega)
    rw [recommendCoachMode]
    rw [h2]
    simp [recommendCoachModeSpec, h0, h1, getCoachStrategyMode_eq]

/-- C9, counterexample: on a tie between two non-baseline modes the claim
says the baseline `reality_check` is recommended; the code picks the
earlier table rule.  The text below scores 1 for both `anxiety_grounding`
and `self_sabotage` and 0 elsewhere, and `anxiety_grounding` is
recommended. -/
theorem recommendCoachMode_tie_counterexample :
    keywordScore (jsToLower "тревога и прокрастинация") ruleAnxietyGrounding
      = keywordScore (jsToLower "тревога и прокрастинация") ruleSelfSabotage
    ∧ 0 < keywordScore (jsToLower "тревога и прокрастинация") ruleAnxietyGrounding
    ∧ ruleAnxietyGrounding.mode ≠ ruleSelfSabotage.mode
    ∧ (recommendCoachMode "тревога и прокрастинация").1 = CoachMode.anxiety_grounding
    ∧ ¬ (recommendCoachMode "тревога и прокрастинация").1 = CoachMode.reality_check := by
  refine ⟨rfl, by decide, by decide, rfl, by decide⟩

/-! ## Conversation flow: feedback capture (`processTelegramJob` in
`workers/src/index.ts`, state helpers in `shared/src/openrouter.ts`,
counters in `shared/src/reports.ts`)

`user_feedback_state` has one row per user with two boolean flags
(defaulting to false); `telegram_flow_counters` maps a counter key to a
monotone count, with an append-only `telegram_flow_events` log.  The
intent predicates (`isFeedbackStartRequest` and friends) and the Russian
prompt renderers live in a shared module not present in the source tree,
so they are parameters of the embedding; the dispatch chain itself is
taken verbatim from `processTelegramJob`. -/

/-- One `user_feedback_state` row. -/
structure UserFlowState where
  awaitingFeedback : Bool
  awaitingModeRecommendation : Bool
  deriving Repr, DecidableEq

/-- Flag values of a missing row (the table defaults). -/
def defaultUserFlowState : UserFlowState := ⟨false, false⟩

/-- A `telegram_feedback` row. -/
structure FeedbackRow where
  chatId : Int
  userId : Int
  username : Option String
  updateId : Int
  message : String
  deriving Repr, DecidableEq

/-- A `telegram_flow_events` row. -/
structure FlowEvent where
  key : String
  chatId : Int
  userId : Int
  updateId : Int
  deriving Repr, DecidableEq

/-- Worker-side persistent state the feedback flow touches. -/
structure WorkerDbState where
  userStates : List (Int × UserFlowState)
  flowCounters : List (String × Nat)
  flowEvents : List FlowEvent
  feedback : List FeedbackRow
  sentMessages : List (Int × String)
  deriving Repr, DecidableEq

/-- Read a user's flow row (`isAwaitingFeedbackState` returns the default
flags when the row is missing). -/
def getUserFlowState (sts : List (Int × UserFlowState)) (userId : Int) : UserFlowState :=
  match sts with
  | [] => defaultUserFlowState
  | (k, v) :: rest => if k == userId then v else getUserFlowState rest userId

/-- `INSERT .. ON CONFLICT (user_id) DO UPDATE` upsert: update the
existing row with `f`, or insert `f` applied to the default row. -/
def upsertUserState (sts : List (Int × UserFlowState)) (userId : Int)
    (f : UserFlowState → UserFlowState) : List (Int × UserFlowState) :=
  match sts with
  | [] => [(userId, f defaultUserFlowState)]
  | (k, v) :: rest =>
    if k == userId then (k, f v) :: rest else (k, v) :: upsertUserState rest userId f

/-- `setAwaitingFeedbackState` (`shared/src/openrouter.ts`). -/
def setAwaitingFeedbackState (sts : List (Int × UserFlowState)) (userId : Int)
    (b : Bool) : List (Int × UserFlowState) :=
  upsertUserState sts userId (fun s => { s with awaitingFeedback := b })

/-- `setAwaitingModeRecommendationState` (`shared/src/openrouter.ts`). -/
def setAwaitingModeRecommendationState (sts : List (Int × UserFlowState)) (userId : Int)
    (b : Bool) : List (Int × UserFlowState) :=
  upsertUserState sts userId (fun s => { s with awaitingModeRecommendation := b })

/-- Current value of a flow counter (0 when the row is missing). -/
def lookupFlowCounter (cs : List (String × Nat)) (key : String) : Nat :=
  match cs with
  | [] => 0
  | (k, v) :: rest => if k == key then v else lookupFlowCounter rest key

/-- `incrementTelegramFlowCounter`: upsert `counter_value + 1` (insert at
1). -/
def incrementTelegramFlowCounter (cs : List (String × Nat)) (key : String) :
    List (String × Nat) :=
  match cs with
  | [] => [(key, 1)]
  | (k, v) :: rest =>
    if k == key then (k, v + 1) :: rest else (k, v) :: incrementTelegramFlowCounter rest key

/-- `recordTelegramFlowCounterSafely`: bump the counter and append the
flow event (logged-and-swallowed DB errors are not modelled). -/
def recordTelegramFlowCounterSafely (st : WorkerDbState) (key : String)
    (p : TelegramJobPayload) : WorkerDbState :=
  { st with
    flowCounters := incrementTelegramFlowCounter st.flowCounters key,
    flowEvents := st.flowEvents ++ [⟨key, p.chatId, p.userId, p.updateId⟩] }

/-- `sendTelegramMessage` as a state effect: the delivered message. -/
def sendMessageS (st : WorkerDbState) (chatId : Int) (text : String) : WorkerDbState :=
  { st with sentMessages := st.sentMessages ++ [(chatId, text)] }

/-- `appendTelegramFeedback` (`shared/src/openrouter.ts`). -/
def appendTelegramFeedback (st : WorkerDbState) (row : FeedbackRow) : WorkerDbState :=
  { st with feedback := st.feedback ++ [row] }

/-- The intent predicates and prompt renderers imported by the worker
from the shared package (their definitions are not part of the provided
source tree, so the embedding is parametric in them). -/
structure IntentTable where
  isFeedbackStartRequest : String → Bool
  isFeedbackCancelRequest : String → Bool
  isModeRecommendationStartRequest : String → Bool
  isModeRecommendationCancelRequest : String → Bool
  feedbackPrompt : String
  modeRecommendationPrompt : String
  recommendationMessage : CoachMode × String → String

/-- The leading dispatch chain of `processTelegramJob` for a text message
(`userInputText` is the message text), covering the feedback branches and
the mode-recommendation branches; `rest` is the remainder of the handler
(mode selection, menu commands and the generic two-stage reply). -/
def processTelegramJobText (tbl : IntentTable)
    (rest : WorkerDbState → TelegramJobPayload → String → WorkerDbState)
    (st : WorkerDbState) (p : TelegramJobPayload) (text : String) : WorkerDbState :=
  if tbl.isFeedbackStartRequest text then
    sendMessageS
      (recordTelegramFlowCounterSafely
        { st with userStates := setAwaitingFeedbackState st.userStates p.userId true }
        "feedback_started" p)
      p.chatId tbl.feedbackPrompt
  else if (getUserFlowState st.userStates p.userId).awaitingFeedback then
    if tbl.isFeedbackCancelRequest text then
      sendMessageS
        (recordTelegramFlowCounterSafely
          { st with userStates := setAwaitingFeedbackState st.userStates p.userId false }
          "feedback_cancelled" p)
        p.chatId "Окей, отменил ввод отзыва."
    else if jsTrim text = "" then
      sendMessageS st p.chatId
        "Не вижу текста отзыва. Отправьте, пожалуйста, отзыв одним сообщением."
    else
      sendMessageS
        (recordTelegramFlowCounterSafely
          { appendTelegramFeedback st ⟨p.chatId, p.userId, p.username, p.updateId, jsTrim text⟩ with
            userStates := setAwaitingFeedbackState st.userStates p.userId false }
          "feedback_saved" p)
        p.chatId "Спасибо! Отзыв сохранен."
  else if tbl.isModeRecommendationStartRequest text then
    sendMessageS
      (recordTelegramFlowCounterSafely
        { st with userStates := setAwaitingModeRecommendationState st.userStates p.userId true }
        "mode_recommendation_started" p)
      p.chatId tbl.modeRecommendationPrompt
  else if (getUserFlowState st.userStates p.userId).awaitingModeRecommendation then
    if tbl.isModeRecommendationCancelRequest text then
      sendMessageS
        (recordTelegramFlowCounterSafely
          { st with userStates := setAwaitingModeRecommendationState st.userStates p.userId false }
          "mode_recommendation_cancelled" p)
        p.chatId "Окей, отменил подбор режима."
    else if (jsTrim text).length < 8 then
      sendMessageS st p.chatId "Нужно чуть больше контекста. Напишите 2-3 коротких предложения."
    else
      sendMessageS
        (recordTelegramFlowCounterSafely
          { st with userStates := setAwaitingModeRecommendationState st.userStates p.userId false }
          "mode_recommendation_suggested" p)
        p.chatId (tbl.recommendationMessage (recommendCoachMode (jsTrim text)))
  else
    rest st p text

theorem getUserFlowState_upsert_same (sts : List (Int × UserFlowState)) (u : Int)
    (f : UserFlowState → UserFlowState) :
    getUserFlowState (upsertUserState sts u f) u = f (getUserFlowState sts u) := by
  induction sts with
  | nil => simp [upsertUserState, getUserFlowState]
  | cons e rest ih =>
    by_cases h : e.1 == u
    · simp [upsertUserState, getUserFlowState, h]
    · simp [upsertUserState, getUserFlowState, h, ih]

theorem lookupFlowCounter_increment_same (cs : List (String × Nat)) (key : String) :
    lookupFlowCounter (incrementTelegramFlowCounter cs key) key
      = lookupFlowCounter cs key + 1 := by
  induction cs with
  | nil => simp [incrementTelegramFlowCounter, lookupFlowCounter]
  | cons e rest ih =>
    by_cases h : e.1 == key
    · simp [incrementTelegramFlowCounter, lookupFlowCounter, h]
    · simp [incrementTelegramFlowCounter, lookupFlowCounter, h, ih]

theorem lookupFlowCounter_increment_ne (cs : List (String × Nat)) (k1 k2 : String)
    (h : (k1 == k2) = false) :
    lookupFlowCounter (incrementTelegramFlowCounter cs k1) k2
      = lookupFlowCounter cs k2 := by
  induction cs with
  | nil => simp [incrementTelegramFlowCounter, lookupFlowCounter, h]
  | cons e rest ih =>
    by_cases he : e.1 == k1
    · have he2 : (e.1 == k2) = false := by
        have h1 : e.1 = k1 := by simpa using he
        subst h1
        exact h
      simp [incrementTelegramFlowCounter, lookupFlowCounter, he, he2]
    · by_cases he2 : e.1 == k2 <;>
        simp [incrementTelegramFlowCounter, lookupFlowCounter, he, he2, ih]

/-- C6: the two-message feedback scenario.  A start-feedback intent flips
the user to `AwaitingFeedback` and bumps `feedback_started`; a following
message from the same user with non-empty trimmed text (and no start or
cancel intent) persists the feedback row, returns the user to idle, and
bumps `feedback_saved`, leaving the funnel at `started = 1, saved = 1`. -/
theorem feedback_flow_funnel (tbl : IntentTable)
    (rest : WorkerDbState → TelegramJobPayload → String → WorkerDbState)
    (st0 st1 st2 : WorkerDbState) (p1 p2 : TelegramJobPayload) (u : Int)
    (t1 t2 : String)
    (hu1 : p1.userId = u) (hu2 : p2.userId = u)
    (hstart1 : tbl.isFeedbackStartRequest t1 = true)
    (hstart2 : tbl.isFeedbackStartRequest t2 = false)
    (hcancel2 : tbl.isFeedbackCancelRequest t2 = false)
    (htrim : ¬ jsTrim t2 = "")
    (hc1 : lookupFlowCounter st0.flowCounters "feedback_started" = 0)
    (hc2 : lookupFlowCounter st0.flowCounters "feedback_saved" = 0)
    (hst1 : st1 = processTelegramJobText tbl rest st0 p1 t1)
    (hst2 : st2 = processTelegramJobText tbl rest st1 p2 t2) :
    (getUserFlowState st1.userStates u).awaitingFeedback = true
    ∧ lookupFlowCounter st1.flowCounters "feedback_started" = 1
    ∧ st2.feedback = st0.feedback ++ [⟨p2.chatId, u, p2.username, p2.updateId, jsTrim t2⟩]
    ∧ (getUserFlowState st2.userStates u).awaitingFeedback = false
    ∧ lookupFlowCounter st2.flowCounters "feedback_started" = 1
    ∧ lookupFlowCounter st2.flowCounters "feedback_saved" = 1 := by
  have hst1' : st1 = sendMessageS
      (recordTelegramFlowCounterSafely
        { st0 with userStates := setAwaitingFeedbackState st0.userStates p1.userId true }
        "feedback_started" p1)
      p1.chatId tbl.feedbackPrompt := by
    rw [hst1, processTelegramJobText]
    simp [hstart1]
  have h1states : st1.userStates = setAwaitingFeedbackState st0.userStates u true := by
    rw [hst1']
    simp [sendMessageS, recordTelegramFlowCounterSafely, hu1]
  have h1counters : st1.flowCounters
      = incrementTelegramFlowCounter st0.flowCounters "feedback_started" := by
    rw [hst1']
    simp [sendMessageS, recordTelegramFlowCounterSafely]
  have h1feedback : st1.feedback = st0.feedback := by
    rw [hst1']
    simp [sendMessageS, recordTelegramFlowCounterSafely]
  have hawait1 : (getUserFlowState st1.userStates u).awaitingFeedback = true := by
    rw [h1states, setAwaitingFeedbackState, getUserFlowState_upsert_same]
  have hstarted1 : lookupFlowCounter st1.flowCounters "feedback_started" = 1 := by
    rw [h1counters, lookupFlowCounter_increment_same, hc1]
  have hawait1' : (getUserFlowState st1.userStates p2.userId).awaitingFeedback = true := by
    rw [hu2]
    exact hawait1
  have hst2' : st2 = sendMessageS
      (recordTelegramFlowCounterSafely
        { appendTelegramFeedback st1
            ⟨p2.chatId, p2.userId, p2.username, p2.updateId, jsTrim t2⟩ with
          userStates := setAwaitingFeedbackState st1.userStates p2.userId false }
        "feedback_saved" p2)
      p2.chatId "Спасибо! Отзыв сохранен." := by
    rw [hst2, processTelegramJobText]
    simp [hstart2, hawait1', hcancel2, htrim]
  have h2states : st2.userStates = setAwaitingFeedbackState st1.userStates u false := by
    rw [hst2']
    simp [sendMessageS, recordTelegramFlowCounterSafely, appendTelegramFeedback, hu2]
  have h2counters : st2.flowCounters
      = incrementTelegramFlowCounter st1.flowCounters "feedback_saved" := by
    rw [hst2']
    simp [sendMessageS, recordTelegramFlowCounterSafely, appendTelegramFeedback]
  have h2feedback : st2.feedback
      = st0.feedback ++ [⟨p2.chatId, u, p2.username, p2.updateId, jsTrim t2⟩] := by
    rw [hst2']
    simp [sendMessageS, recordTelegramFlowCounterSafely, appendTelegramFeedback,
      h1feedback, hu2]
  refine ⟨hawait1, hstarted1, h2feedback, ?_, ?_, ?_⟩
  · rw [h2states, setAwaitingFeedbackState, getUserFlowState_upsert_same]
  · rw [h2counters, lookupFlowCounter_increment_ne _ _ _ (by decide), hstarted1]
  · rw [h2counters, lookupFlowCounter_increment_same, h1counters,
      lookupFlowCounter_increment_ne _ _ _ (by decide), hc2]

/-- Witness for C6: a concrete intent table (`/feedback` starts,
`/cancel` cancels), messages `"/feedback"` then `"great bot"`, and an
empty initial state. -/
theorem feedback_flow_funnel_witness :
    (getUserFlowState (processTelegramJobText
        ⟨(· == "/feedback"), (· == "/cancel"), (· == "/recommend"), (· == "/cancel"),
         "prompt", "recprompt", fun _ => "rec"⟩
        (fun st _ _ => st) ⟨[], [], [], [], []⟩ ⟨1, 5, 9, none, some "/feedback", none⟩
        "/feedback").userStates 9).awaitingFeedback = true
    ∧ (processTelegramJobText
        ⟨(· == "/feedback"), (· == "/cancel"), (· == "/recommend"), (· == "/cancel"),
         "prompt", "recprompt", fun _ => "rec"⟩
        (fun st _ _ => st)
        (processTelegramJobText
          ⟨(· == "/feedback"), (· == "/cancel"), (· == "/recommend"), (· == "/cancel"),
           "prompt", "recprompt", fun _ => "rec"⟩
          (fun st _ _ => st) ⟨[], [], [], [], []⟩ ⟨1, 5, 9, none, some "/feedback", none⟩
          "/feedback")
        ⟨2, 5, 9, none, some "great bot", none⟩ "great bot").feedback
      = [⟨5, 9, none, 2, "great bot"⟩]
    ∧ lookupFlowCounter (processTelegramJobText
        ⟨(· == "/feedback"), (· == "/cancel"), (· == "/recommend"), (· == "/cancel"),
         "prompt", "recprompt", fun _ => "rec"⟩
        (fun st _ _ => st)
        (processTelegramJobText
          ⟨(· == "/feedback"), (· == "/cancel"), (· == "/recommend"), (· == "/cancel"),
           "prompt", "recprompt", fun _ => "rec"⟩
          (fun st _ _ => st) ⟨[], [], [], [], []⟩ ⟨1, 5, 9, none, some "/feedback", none⟩
          "/feedback")
        ⟨2, 5, 9, none, some "great bot", none⟩ "great bot").flowCounters
        "feedback_started" = 1
    ∧ lookupFlowCounter (processTelegramJobText
        ⟨(· == "/feedback"), (· == "/cancel"), (· == "/recommend"), (· == "/cancel"),
         "prompt", "recprompt", fun _ => "rec"⟩
        (fun st _ _ => st)
        (processTelegramJobText
          ⟨(· == "/feedback"), (· == "/cancel"), (· == "/recommend"), (· == "/cancel"),
           "prompt", "recprompt", fun _ => "rec"⟩
          (fun st _ _ => st) ⟨[], [], [], [], []⟩ ⟨1, 5, 9, none, some "/feedback", none⟩
          "/feedback")
        ⟨2, 5, 9, none, some "great bot", none⟩ "great bot").flowCounters
        "feedback_saved" = 1 := by
  have h := feedback_flow_funnel
    ⟨(· == "/feedback"), (· == "/cancel"), (· == "/recommend"), (· == "/cancel"),
     "prompt", "recprompt", fun _ => "rec"⟩
    (fun st _ _ => st) ⟨[], [], [], [], []⟩
    (processTelegramJobText
      ⟨(· == "/feedback"), (· == "/cancel"), (· == "/recommend"), (· == "/cancel"),
       "prompt", "recprompt", fun _ => "rec"⟩
      (fun st _ _ => st) ⟨[], [], [], [], []⟩ ⟨1, 5, 9, none, some "/feedback", none⟩
      "/feedback")
    (processTelegramJobText
      ⟨(· == "/feedback"), (· == "/cancel"), (· == "/recommend"), (· == "/cancel"),
       "prompt", "recprompt", fun _ => "rec"⟩
      (fun st _ _ => st)
      (processTelegramJobText
        ⟨(· == "/feedback"), (· == "/cancel"), (· == "/recommend"), (· == "/cancel"),
         "prompt", "recprompt", fun _ => "rec"⟩
        (fun st _ _ => st) ⟨[], [], [], [], []⟩ ⟨1, 5, 9, none, some "/feedback", none⟩
        "/feedback")
      ⟨2, 5, 9, none, some "great bot", none⟩ "great bot")
    ⟨1, 5, 9, none, some "/feedback", none⟩ ⟨2, 5, 9, none, some "great bot", none⟩ 9
    "/feedback" "great bot" rfl rfl (by decide) (by decide) (by decide) (by decide)
    rfl rfl rfl rfl
  exact ⟨h.1, by simpa using h.2.2.1, h.2.2.2.2.1, h.2.2.2.2.2⟩

end Bonchik
